import Mathlib

/-!
Verification of the TDS Project 1 grading pipeline.

This file gives a shallow embedding, in Lean 4, of the parts of the Python
source that the specification's claims talk about:

* `notify_evaluation`        (src/evaluation_notifier.py)
* `submit_repo`              (src/evaluation_api.py)
* `run_evaluation`           (src/evaluate.py)
* `check_license`            (src/evaluate.py)
* the per-check dispatch of `run_playwright_checks` (src/evaluate.py)
* `generate_task_data`       (src/task_templates.py)
* `run_round2`               (src/round2.py)

External effects are made explicit: the SQLAlchemy store becomes lists of
rows threaded through the functions, HTTP calls become oracle functions
from attempt/endpoint to an outcome, the global `random` module becomes an
explicitly threaded `Nat` state together with a `PyRandom` interface
(`random.seed` sets the state from the seed string, draws step it), and
Python's process-salted `hash` on strings becomes an arbitrary but fixed
function `String → Int`.  Python exceptions become `Except PyExn`.
-/

/-! ## Python string primitives -/

/-- Python `s.lower()` (the sources only compare ASCII markers). -/
def pyLower (s : String) : String :=
  String.mk (s.toList.map Char.toLower)

/-- `charsLeads sub l` : `sub` occurs at the very start of `l`. -/
def charsLeads : List Char → List Char → Bool
  | [], _ => true
  | _ :: _, [] => false
  | a :: s, b :: t => a == b && charsLeads s t

/-- `charsHasSub sub l` : `sub` occurs contiguously somewhere in `l`. -/
def charsHasSub (sub : List Char) : List Char → Bool
  | [] => sub.isEmpty
  | b :: t => charsLeads sub (b :: t) || charsHasSub sub t

/-- Python `sub in s` (substring containment). -/
def pyIn (sub s : String) : Bool :=
  charsHasSub sub.toList s.toList

/-- Left-to-right, non-overlapping replacement of `pat` by `rep`, with fuel
for structural termination (the fuel `l.length` always suffices for a
non-empty `pat`, the only case the sources use). -/
def replaceGo (pat rep : List Char) : Nat → List Char → List Char
  | 0, l => l
  | _ + 1, [] => []
  | fuel + 1, c :: t =>
    if !pat.isEmpty && charsLeads pat (c :: t) then
      rep ++ replaceGo pat rep fuel ((c :: t).drop pat.length)
    else
      c :: replaceGo pat rep fuel t

/-- Python `s.replace(pat, rep)` for non-empty `pat`. -/
def pyReplace (s pat rep : String) : String :=
  String.mk (replaceGo pat.toList rep.toList s.toList.length s.toList)

/-! ## Notification dispatcher (src/evaluation_notifier.py, notify_evaluation)

The destination is an oracle from the 0-based attempt number to what
`requests.post` did on that attempt: either a response (status code and
body text) or a `requests.exceptions.RequestException`. -/

/-- Outcome of one `requests.post` call. -/
inductive HttpOutcome where
  | response (status : Nat) (text : String)
  | exn (msg : String)
deriving Repr, DecidableEq

/-- Return value of `notify_evaluation`: the success dict carries
`status_code`, `response` text and the 1-based `attempt`; the failure dict
carries `attempts = max_retries`. -/
inductive NotifyOutcome where
  | success (status_code : Nat) (response : String) (attempt : Nat)
  | failure (attempts : Nat)
deriving Repr, DecidableEq

/-- The backoff bookkeeping at the bottom of the loop body: after a
non-200/exception attempt `a`, sleep `2^a` seconds if `a < max_retries - 1`.
We record the slept delays (second component) and the attempts made
(third component). -/
def notifyStep (maxRetries a : Nat) :
    NotifyOutcome × List Nat × List Nat → NotifyOutcome × List Nat × List Nat
  | (r, ds, cs) =>
    if a < maxRetries - 1 then (r, 2 ^ a :: ds, a :: cs) else (r, ds, a :: cs)

/-- The `for attempt in range(max_retries)` loop of `notify_evaluation`,
processing the given list of attempt numbers.  Returns the function's
return value, the list of slept backoff delays in order, and the list of
attempt numbers on which a POST was actually made. -/
def notifyGo (dest : Nat → HttpOutcome) (maxRetries : Nat) :
    List Nat → NotifyOutcome × List Nat × List Nat
  | [] => (.failure maxRetries, [], [])
  | a :: rest =>
    match dest a with
    | .response status text =>
      if status == 200 then (.success status text (a + 1), [], [a])
      else notifyStep maxRetries a (notifyGo dest maxRetries rest)
    | .exn _ => notifyStep maxRetries a (notifyGo dest maxRetries rest)

/-- `notify_evaluation` (src/evaluation_notifier.py): POST with exponential
backoff over attempts `0, …, max_retries - 1`. -/
def notify_evaluation (dest : Nat → HttpOutcome) (maxRetries : Nat) :
    NotifyOutcome × List Nat × List Nat :=
  notifyGo dest maxRetries (List.range maxRetries)

/-- Did this HTTP outcome have `status_code == 200`? -/
def ok200 : HttpOutcome → Bool
  | .response s _ => s == 200
  | .exn _ => false

/-- Body text of a response (`""` for an exception). -/
def respText : HttpOutcome → String
  | .response _ t => t
  | .exn _ => ""

/-! ## Data model (src/database.py)

`Task`, `Repo` (= Submission) and `Result` rows.  The autoincrement `id`
and server-side timestamp defaults are irrelevant to the claims; row
timestamps are `Nat` clock readings supplied by the caller. -/

/-- One attachment as stored/sent: `{'name': …, 'url': …}`. -/
structure AttachmentEntry where
  name : String
  url : String
deriving Repr, DecidableEq

/-- A row of the `tasks` table. -/
structure TaskRow where
  email : String
  task : String
  round : Nat
  nonce : String
  brief : String
  attachments : List AttachmentEntry
  checks : List String
  evaluation_url : String
  endpoint : String
  statuscode : Nat
  secret : String
deriving Repr, DecidableEq

/-- A row of the `repos` table (a stored Submission). -/
structure RepoRow where
  email : String
  task : String
  round : Nat
  nonce : String
  repo_url : String
  commit_sha : String
  pages_url : String
  timestamp : Nat
deriving Repr, DecidableEq

/-- A row of the `results` table. -/
structure ResultRow where
  email : String
  task : String
  round : Nat
  repo_url : String
  commit_sha : String
  pages_url : String
  check : String
  score : Nat
  reason : String
  logs : String
deriving Repr, DecidableEq

/-- The persistent store: the three tables, rows in insertion order. -/
structure DB where
  tasks : List TaskRow
  repos : List RepoRow
  results : List ResultRow
deriving Repr, DecidableEq

/-! ## Submission intake (src/evaluation_api.py, submit_repo) -/

/-- The JSON body of a well-formed `/api/submit` request (all seven
required fields present). -/
structure SubmitPayload where
  email : String
  task : String
  round : Nat
  nonce : String
  repo_url : String
  commit_sha : String
  pages_url : String
deriving Repr, DecidableEq

/-- The JSON response of `submit_repo`: HTTP status plus the `error` or
`message` field of the body. -/
structure SubmitResp where
  status : Nat
  error : Option String
  message : Option String
deriving Repr, DecidableEq

/-- `filter_by(email=…, task=…, round=…, nonce=…)` on the `tasks` table. -/
def taskKeyMatch (p : SubmitPayload) (t : TaskRow) : Bool :=
  t.email == p.email && t.task == p.task && t.round == p.round && t.nonce == p.nonce

/-- `filter_by(email=…, task=…, round=…, nonce=…)` on the `repos` table. -/
def repoKeyMatch (p : SubmitPayload) (r : RepoRow) : Bool :=
  r.email == p.email && r.task == p.task && r.round == p.round && r.nonce == p.nonce

/-- Mutate the first row satisfying `p` (what assigning to the object
returned by `.first()` does), leaving every other row unchanged. -/
def updateFirst (p : α → Bool) (f : α → α) : List α → List α
  | [] => []
  | a :: t => if p a then f a :: t else a :: updateFirst p f t

/-- `submit_repo` (src/evaluation_api.py): validate the key tuple against
the `tasks` table, then upsert into `repos`.  `now` is
`datetime.utcnow()` at the time of the call. -/
def submit_repo (db : DB) (p : SubmitPayload) (now : Nat) : SubmitResp × DB :=
  match db.tasks.find? (taskKeyMatch p) with
  | none => (⟨400, some "No matching task found", none⟩, db)
  | some _ =>
    match db.repos.find? (repoKeyMatch p) with
    | some _ =>
      let repos := updateFirst (repoKeyMatch p)
        (fun r => { r with repo_url := p.repo_url, commit_sha := p.commit_sha,
                           pages_url := p.pages_url, timestamp := now }) db.repos
      (⟨200, none, some "Submission updated"⟩, { db with repos := repos })
    | none =>
      let row : RepoRow :=
        { email := p.email, task := p.task, round := p.round, nonce := p.nonce,
          repo_url := p.repo_url, commit_sha := p.commit_sha,
          pages_url := p.pages_url, timestamp := now }
      (⟨200, none, some "Submission received"⟩, { db with repos := db.repos ++ [row] })

/-! ## License check (src/evaluate.py, check_license)

The network is abstracted to the outcome of the single `requests.get` on
the raw LICENSE URL: a response (status, body) or a raised exception. -/

/-- Outcome of `requests.get` (or of the code before it) for a check:
either a response or an exception message (`str(e)`). -/
inductive FetchOutcome where
  | response (status : Nat) (text : String)
  | exn (msg : String)
deriving Repr, DecidableEq

/-- The MIT condition of `check_license`: the lowered body contains both
`'mit'` and `'permission is hereby granted'`. -/
def mitCond (body : String) : Bool :=
  pyIn "mit" (pyLower body) && pyIn "permission is hereby granted" (pyLower body)

/-- `check_license` (src/evaluate.py), as a function of the fetch outcome.
Returns `(score, reason, logs)`. -/
def check_license (fetch : FetchOutcome) : Nat × String × String :=
  match fetch with
  | .response status text =>
    if status == 200 then
      if mitCond text then
        (1, "MIT license found", "License content: " ++ text.take 200 ++ "...")
      else
        (0, "License file exists but may not be MIT", "Content: " ++ text.take 200 ++ "...")
    else
      (0, "No LICENSE file found", "Status: " ++ toString status)
  | .exn msg => (0, "Error checking license", msg)

/-! ## Behavioral check dispatch (src/evaluate.py, run_playwright_checks)

We model the page state reached after a successful `page.goto`: its title
and which CSS selectors `page.query_selector` finds an element for. -/

/-- The loaded page: `page.title()` and `page.query_selector(sel) is not
None` as a predicate on selector strings. -/
structure PageState where
  title : String
  hasSelector : String → Bool

/-- `check.split('#')[1].split()[0]` : the first whitespace-delimited token
of the text between the first `'#'` and the next `'#'` (if any); `none`
when `[0]` would raise `IndexError` on an empty token list. -/
def selectorOf (check : String) : Option String :=
  let afterHash := ((check.toList.dropWhile (fun c => c != '#')).drop 1).takeWhile
      (fun c => c != '#')
  let tok := (afterHash.dropWhile Char.isWhitespace).takeWhile (fun c => !c.isWhitespace)
  if tok.isEmpty then none else some (String.mk tok)

/-- One iteration of the per-check loop of `run_playwright_checks`, after
navigation succeeded: keyword rules tried in the source's order
(`title`, `bootstrap`, `'#'`, `marked`/`highlight`, `license`, `readme`,
generic pass).  Returns `(check, score, reason, logs)`. -/
def runCheck (page : PageState) (check : String) : String × Nat × String × String :=
  if pyIn "title" (pyLower check) then
    if pyIn "Sales Summary" check && pyIn "Sales Summary" page.title then
      (check, 1, "Title matches", "Title: " ++ page.title)
    else
      (check, 0, "Title mismatch", "Title: " ++ page.title)
  else if pyIn "bootstrap" (pyLower check) then
    if page.hasSelector "link[href*=\"bootstrap\"]" then
      (check, 1, "Bootstrap found", "Link element exists")
    else
      (check, 0, "Bootstrap not found", "No Bootstrap link")
  else if pyIn "#" check then
    match selectorOf check with
    | some sel =>
      if page.hasSelector ("#" ++ sel) then
        (check, 1, "Element #" ++ sel ++ " found", "Element exists")
      else
        (check, 0, "Element #" ++ sel ++ " not found", "Element missing")
    | none =>
      (check, 0, "Error running check", "IndexError: list index out of range")
  else if pyIn "marked" (pyLower check) || pyIn "highlight" (pyLower check) then
    let src := if pyIn "marked" (pyLower check) then "marked" else "highlight"
    if page.hasSelector ("script[src*=\"" ++ src ++ "\"]") then
      (check, 1, src ++ ".js found", "Script loaded")
    else
      (check, 0, src ++ ".js not found", "Script missing")
  else if pyIn "license" (pyLower check) then
    (check, 1, "Checked separately", "License validation")
  else if pyIn "readme" (pyLower check) then
    (check, 1, "Checked separately", "README validation")
  else
    (check, 1, "Generic check passed", "No specific validation")

/-! ## Evaluation orchestrator (src/evaluate.py, run_evaluation)

`evaluate_submission` is a tissue of external calls (HTTP fetches, LLM
requests, a browser); for the orchestration claims it is an oracle from
the repo and task rows to the list of `(check, score, reason, logs)`
tuples it returns.  `run_evaluation` turns those into `Result` rows keyed
by the repo's `(email, task, round)`. -/

/-- The `(check, score, reason, logs)` dicts returned by
`evaluate_submission`. -/
structure CheckOutcome where
  check : String
  score : Nat
  reason : String
  logs : String
deriving Repr, DecidableEq

/-- The keyword filter `filter_by(email=…, task=…, round=…)` on the
`results` table. -/
def resultKey (email task : String) (round : Nat) (x : ResultRow) : Bool :=
  x.email == email && x.task == task && x.round == round

/-- The `Result(...)` constructor call inside `run_evaluation`. -/
def mkResult (repo : RepoRow) (c : CheckOutcome) : ResultRow :=
  { email := repo.email, task := repo.task, round := repo.round,
    repo_url := repo.repo_url, commit_sha := repo.commit_sha,
    pages_url := repo.pages_url, check := c.check, score := c.score,
    reason := c.reason, logs := c.logs }

/-- The per-repo loop of `run_evaluation`, threading the `results` table.
`evalSub` is the `evaluate_submission` oracle. -/
def runEvalLoop (evalSub : RepoRow → TaskRow → List CheckOutcome)
    (tasks : List TaskRow) : List RepoRow → List ResultRow → List ResultRow
  | [], results => results
  | repo :: rest, results =>
    if results.countP (resultKey repo.email repo.task repo.round) > 0 then
      runEvalLoop evalSub tasks rest results
    else
      match tasks.find? (fun t =>
          t.email == repo.email && t.task == repo.task && t.round == repo.round) with
      | none => runEvalLoop evalSub tasks rest results
      | some task =>
        runEvalLoop evalSub tasks rest
          (results ++ (evalSub repo task).map (mkResult repo))

/-- `run_evaluation` (src/evaluate.py): iterate over the snapshot of the
`repos` table, skipping any repo whose `(email, task, round)` already has
a `Result`, otherwise appending one `Result` per check outcome. -/
def run_evaluation (evalSub : RepoRow → TaskRow → List CheckOutcome) (db : DB) : DB :=
  { db with results := runEvalLoop evalSub db.tasks db.repos db.results }

/-! ## Seeded task generator (src/task_templates.py, generate_task_data)

The global `random` module is a `Nat` state threaded through the calls.
`PyRandom` packages the two operations the generator uses: `random.seed`
(replace the state by a function of the seed string) and one raw draw
(used by `random.choice` modulo the sequence length).  Python's `hash` on
strings — fixed per process but salted across processes — is an arbitrary
function `String → Int` passed in explicitly. -/

/-- An abstract deterministic PRNG in the shape of Python's `random`
module: `seedFn` is `random.seed`, `next` one raw draw. -/
structure PyRandom where
  seedFn : String → Nat
  next : Nat → Nat × Nat

/-- Python exceptions the generator can raise. `configError` stands for
the `ConfigurationError` the specification speaks of; no such class
exists anywhere in the source. -/
inductive PyExn where
  | indexError (msg : String)
  | configError (msg : String)
deriving Repr, DecidableEq

/-- Is this the specification's `ConfigurationError`? -/
def PyExn.isConfigError : PyExn → Bool
  | .configError _ => true
  | _ => false

/-- `random.choice(seq)`: `IndexError` on an empty sequence, otherwise a
draw taken modulo the length. -/
def pyChoice (R : PyRandom) (g : Nat) : List α → Except PyExn (α × Nat)
  | [] => .error (.indexError "Cannot choose from an empty sequence")
  | a :: t =>
    let (v, g') := R.next g
    .ok ((a :: t).getD (v % (t.length + 1)) a, g')

/-- What an attachment generator (`generate_sales_csv` and friends)
returns, restricted to the fields `generate_task_data` reads.  The extra
fields (`total`, `rates`) are not consumed by the generator's caller. -/
structure AttachmentData where
  content : String
  encoded : String
deriving Repr, DecidableEq

/-- An attachment generator: a function of the seed string and the global
PRNG state (each concrete generator begins with `random.seed(seed)`, but
the interface passes the state through faithfully). -/
def AttachGen := String → Nat → AttachmentData × Nat

/-- A member of a template's `round2_options` list; `attachments_generator`
is `some` exactly when the key is present in the dict. -/
structure Round2Option where
  brief : String
  attachments_generator : Option AttachGen
  checks : List String

/-- A template of the registry returned by `get_task_templates`;
`attachments_generator` is `none` for a `None` entry. -/
structure TaskTemplate where
  id : String
  brief : String
  attachments_generator : Option AttachGen
  checks : List String
  round2_options : List Round2Option

/-- `str(abs(hash(seed)) % 10000)` substituted for every `'{seed}'`. -/
def substSeed (pyHash : String → Int) (seed s : String) : String :=
  pyReplace s "{seed}" (toString ((pyHash seed).natAbs % 10000))

/-- The round-1 filename dispatch on the template's brief. -/
def round1Filename (brief : String) : String :=
  if pyIn "csv" (pyLower brief) then "data.csv"
  else if pyIn "markdown" (pyLower brief) then "input.md"
  else if pyIn "json" (pyLower brief) then "rates.json"
  else "data.txt"

/-- The dict returned by `generate_task_data`. -/
structure TaskData where
  template_id : String
  brief : String
  checks : List String
  attachments : List AttachmentEntry
deriving Repr, DecidableEq

/-- `generate_task_data` (src/task_templates.py): seed the PRNG, draw a
template, then build brief/checks/attachments for round 1 or a
`round2_options` variant otherwise.  `g` is the global PRNG state at call
time; the pair's second component is the state afterwards. -/
def generate_task_data (R : PyRandom) (pyHash : String → Int)
    (templates : List TaskTemplate) (seed : String) (round_num : Nat) (g : Nat) :
    Except PyExn (TaskData × Nat) :=
  let g0 := R.seedFn seed
  match pyChoice R g0 templates with
  | .error e => .error e
  | .ok (template, g1) =>
    if round_num == 1 then
      let brief := substSeed pyHash seed template.brief
      let checks := template.checks.map (substSeed pyHash seed)
      match template.attachments_generator with
      | none =>
        .ok ({ template_id := template.id, brief := brief, checks := checks,
               attachments := [] }, g1)
      | some gen =>
        let (ad, g2) := gen seed g1
        .ok ({ template_id := template.id, brief := brief, checks := checks,
               attachments := [⟨round1Filename template.brief, ad.encoded⟩] }, g2)
    else
      match pyChoice R g1 template.round2_options with
      | .error e => .error e
      | .ok (opt, g2) =>
        let brief := substSeed pyHash seed opt.brief
        let checks := opt.checks.map (substSeed pyHash seed)
        match opt.attachments_generator with
        | none =>
          .ok ({ template_id := template.id, brief := brief, checks := checks,
                 attachments := [] }, g2)
        | some gen =>
          let (ad, g3) := gen seed g2
          .ok ({ template_id := template.id, brief := brief, checks := checks,
                 attachments :=
                   [⟨if pyIn "json" (pyLower opt.brief) then "rates.json" else "data.txt",
                     ad.encoded⟩] }, g3)

/-! ## Round-2 distribution (src/round2.py, run_round2) -/

/-- Python `str()` of one attachment dict (`{'name': …, 'url': …}`). -/
def pyStrAttachment (a : AttachmentEntry) : String :=
  "\x7b'name': '" ++ a.name ++ "', 'url': '" ++ a.url ++ "'\x7d"

/-- Python `str()` of the attachments list. -/
def pyStrAttachments (l : List AttachmentEntry) : String :=
  "[" ++ String.intercalate ", " (l.map pyStrAttachment) ++ "]"

/-- `generate_task_id` (src/round2.py): `<template-id>-<first 5 hex chars
of sha256(brief + str(attachments))>`; `sha256hex` is the hex digest
function. -/
def generate_task_id (sha256hex : String → String)
    (template_id brief : String) (attachments : List AttachmentEntry) : String :=
  template_id ++ "-" ++ (sha256hex (brief ++ pyStrAttachments attachments)).take 5

/-- The JSON payload `send_task` POSTs to the student endpoint. -/
structure DeliverPayload where
  email : String
  secret : String
  task : String
  round : Nat
  nonce : String
  brief : String
  checks : List String
  evaluation_url : String
  attachments : List AttachmentEntry
deriving Repr, DecidableEq

/-- The ambient world `run_round2` reads: the PRNG, the per-process string
hash, the registry from `get_task_templates()`, the current hour bucket
`datetime.utcnow().strftime('%Y-%m-%d-%H')`, the SHA-256 hex digest, the
`uuid7str()` stream (indexed by how many nonces were drawn so far in this
run), the delivery outcome of `send_task` (status code, `0` on a request
exception), and the evaluation callback URL. -/
structure R2Env where
  R : PyRandom
  pyHash : String → Int
  templates : List TaskTemplate
  hourBucket : String
  sha256hex : String → String
  nonces : Nat → String
  send : String → DeliverPayload → Nat
  evaluation_url : String

/-- The per-repo loop of `run_round2`, threading the `tasks` table, the
PRNG state and the nonce counter.  An exception from the generator
propagates out of the run (there is no try/except around it). -/
def round2Loop (env : R2Env) :
    List RepoRow → List TaskRow → Nat → Nat → Except PyExn (List TaskRow)
  | [], tasks, _, _ => .ok tasks
  | repo :: rest, tasks, g, nidx =>
    if (tasks.find? (fun t => t.email == repo.email && t.round == 2)).isSome then
      round2Loop env rest tasks g nidx
    else
      match tasks.find? (fun t =>
          t.email == repo.email && t.task == repo.task && t.round == 1) with
      | none => round2Loop env rest tasks g nidx
      | some round1_task =>
        let endpoint := round1_task.endpoint
        let secret := round1_task.secret
        let seed := repo.email ++ ":" ++ env.hourBucket
        match generate_task_data env.R env.pyHash env.templates seed 2 g with
        | .error e => .error e
        | .ok (td, g') =>
          let task_id := generate_task_id env.sha256hex td.template_id td.brief td.attachments
          let nonce := env.nonces nidx
          let status := env.send endpoint
            { email := repo.email, secret := secret, task := task_id, round := 2,
              nonce := nonce, brief := td.brief, checks := td.checks,
              evaluation_url := env.evaluation_url, attachments := td.attachments }
          let newTask : TaskRow :=
            { email := repo.email, task := task_id, round := 2, nonce := nonce,
              brief := td.brief, attachments := td.attachments, checks := td.checks,
              evaluation_url := env.evaluation_url, endpoint := endpoint,
              statuscode := status, secret := secret }
          round2Loop env rest (tasks ++ [newTask]) g' (nidx + 1)

/-- `run_round2` (src/round2.py): iterate over the round-1 rows of the
`repos` table, issuing at most one round-2 task per such participant.
`g` is the global PRNG state at the start of the run. -/
def run_round2 (env : R2Env) (db : DB) (g : Nat) : Except PyExn DB :=
  match round2Loop env (db.repos.filter (fun r => r.round == 1)) db.tasks g 0 with
  | .error e => .error e
  | .ok tasks => .ok { db with tasks := tasks }

/-! # Theorems -/

/-! ## C1 — determinism of the seeded generator -/

/-- C1.  Task generation is deterministic: with the same registry, seed
string, round, per-process string hash and PRNG implementation, two calls
of `generate_task_data` — whatever the global PRNG state `g`/`g'` each
call starts from — return identical values: the same brief text, check
list and attachment entries (hence byte-identical payloads), and even the
same final PRNG state, because the function begins with
`random.seed(seed)`, which discards the prior state. -/
theorem generate_task_data_deterministic (R : PyRandom) (pyHash : String → Int)
    (templates : List TaskTemplate) (seed : String) (round_num : Nat) (g g' : Nat) :
    generate_task_data R pyHash templates seed round_num g =
      generate_task_data R pyHash templates seed round_num g' := rfl

/-! ## C7 — empty template registry -/

/-- A concrete PRNG instance for closed evaluations. -/
def rngEx : PyRandom := ⟨fun _ => 0, fun g => (1, g + 1)⟩

/-- A concrete per-process string hash for closed evaluations. -/
def hashEx : String → Int := fun _ => 7

/-- C7 counterexample.  On an empty registry the generator does not fail
with a `ConfigurationError`: it fails with the `IndexError` that
`random.choice` raises on an empty sequence (no `ConfigurationError`
class exists in the source at all). -/
theorem generate_task_data_empty_no_configerror :
    generate_task_data rngEx hashEx [] "student@example.com:2025-02-01-10" 1 0 =
      Except.error (PyExn.indexError "Cannot choose from an empty sequence") ∧
    PyExn.isConfigError (PyExn.indexError "Cannot choose from an empty sequence") = false :=
  ⟨rfl, rfl⟩

/-- C7 amended.  When the template registry given to the task generator is
empty, generation fails by raising the `IndexError` from `random.choice`
(an uncaught exception, not a `ConfigurationError`), for every PRNG,
string hash, seed, round and prior PRNG state. -/
theorem generate_task_data_empty_registry (R : PyRandom) (pyHash : String → Int)
    (seed : String) (round_num g : Nat) :
    generate_task_data R pyHash [] seed round_num g =
      Except.error (PyExn.indexError "Cannot choose from an empty sequence") := rfl

/-! ## C8 — license check -/

/-- C8.  `check_license` scores 1 on a 200 response exactly when the
lowered body contains both the `"mit"` marker and the granting phrase
`"permission is hereby granted"`; a 404 scores 0 with reason
`"No LICENSE file found"` and the HTTP status as log; a fetch exception
scores 0 with the exception text as log. -/
theorem check_license_spec (body msg : String) :
    ((check_license (.response 200 body)).1 = 1 ↔
      (pyIn "mit" (pyLower body) = true ∧
       pyIn "permission is hereby granted" (pyLower body) = true)) ∧
    check_license (.response 404 body) = (0, "No LICENSE file found", "Status: 404") ∧
    check_license (.exn msg) = (0, "Error checking license", msg) := by
  refine ⟨?_, rfl, rfl⟩
  by_cases h : (pyIn "mit" (pyLower body) &&
      pyIn "permission is hereby granted" (pyLower body)) = true
  · obtain ⟨h1, h2⟩ : _ ∧ _ := by simpa using h
    simp [check_license, mitCond, h, h1, h2]
  · have h' : (pyIn "mit" (pyLower body) &&
        pyIn "permission is hereby granted" (pyLower body)) = false := by
      rwa [Bool.not_eq_true] at h
    constructor
    · intro hc
      simp [check_license, mitCond, h'] at hc
    · rintro ⟨h1, h2⟩
      rw [h1, h2] at h'
      simp at h'

/-! ## Helper lemmas on list queries -/

/-- `find?` over a split list whose left part all fails the predicate. -/
lemma find?_split (p : α → Bool) (l₁ l₂ : List α) (x : α)
    (h : ∀ y ∈ l₁, p y = false) (hx : p x = true) :
    (l₁ ++ x :: l₂).find? p = some x := by
  induction l₁ with
  | nil => simp [List.find?_cons, hx]
  | cons a t ih =>
    have ha : p a = false := h a (by simp)
    simp only [List.cons_append, List.find?_cons, ha]
    exact ih (fun y hy => h y (by simp [hy]))

/-- `updateFirst` over a split list whose left part all fails the
predicate rewrites exactly the head of the right part. -/
lemma updateFirst_split (p : α → Bool) (f : α → α) (l₁ l₂ : List α) (x : α)
    (h : ∀ y ∈ l₁, p y = false) (hx : p x = true) :
    updateFirst p f (l₁ ++ x :: l₂) = l₁ ++ f x :: l₂ := by
  induction l₁ with
  | nil => simp [updateFirst, hx]
  | cons a t ih =>
    have ha : p a = false := h a (by simp)
    simp only [List.cons_append, updateFirst, ha]
    simp [ih (fun y hy => h y (by simp [hy]))]

/-! ## C5 — rejection of unmatched submissions -/

/-- C5.  A payload whose `(email, task, round, nonce)` tuple matches no
row of the `tasks` table is rejected with the 400 validation error
`"No matching task found"` and the store is returned unchanged: no
Submission row is created. -/
theorem submit_repo_rejects_unmatched (db : DB) (p : SubmitPayload) (now : Nat)
    (h : db.tasks.find? (taskKeyMatch p) = none) :
    submit_repo db p now = (⟨400, some "No matching task found", none⟩, db) := by
  simp [submit_repo, h]

/-- A concrete issued task for closed evaluations. -/
def taskEx : TaskRow :=
  ⟨"a@x.com", "sum-of-sales-00000", 1, "n1", "brief text", [],
   ["Repo has MIT license"], "http://eval/api/submit", "http://student/api", 200, "s3cret"⟩

/-- A concrete well-formed submission payload matching `taskEx`. -/
def payloadEx : SubmitPayload :=
  ⟨"a@x.com", "sum-of-sales-00000", 1, "n1", "https://github.com/a/r", "deadbeef",
   "https://a.github.io/r/"⟩

/-- C5 witness: against an empty task table the payload is rejected and
the store is unchanged. -/
theorem submit_repo_rejects_unmatched_witness :
    submit_repo ⟨[], [], []⟩ payloadEx 5 =
      (⟨400, some "No matching task found", none⟩, ⟨[], [], []⟩) :=
  submit_repo_rejects_unmatched ⟨[], [], []⟩ payloadEx 5 rfl

/-! ## C4 — idempotent upsert intake -/

/-- The `Repo(...)` row inserted by `submit_repo` on the insert path. -/
def insertedRow (p : SubmitPayload) (ts : Nat) : RepoRow :=
  ⟨p.email, p.task, p.round, p.nonce, p.repo_url, p.commit_sha, p.pages_url, ts⟩

/-- C4.  For a payload whose key tuple matches an issued Task and which
has not been submitted before, submitting twice stores exactly one
Submission for that key: the first call reports the 200 response
`"Submission received"` and inserts, the second reports the distinct 200
response `"Submission updated"` and updates in place, leaving one row for
the key and total row count `+1`. -/
theorem submit_repo_upsert (db : DB) (p : SubmitPayload) (t1 t2 : Nat)
    (htask : (db.tasks.find? (taskKeyMatch p)).isSome = true)
    (hnew : db.repos.countP (repoKeyMatch p) = 0) :
    (submit_repo db p t1).1 = ⟨200, none, some "Submission received"⟩ ∧
    (submit_repo (submit_repo db p t1).2 p t2).1 = ⟨200, none, some "Submission updated"⟩ ∧
    (submit_repo (submit_repo db p t1).2 p t2).2.repos.countP (repoKeyMatch p) = 1 ∧
    (submit_repo (submit_repo db p t1).2 p t2).2.repos.length = db.repos.length + 1 := by
  obtain ⟨t, ht⟩ := Option.isSome_iff_exists.mp htask
  have hall : ∀ y ∈ db.repos, repoKeyMatch p y = false := by
    intro y hy
    have := (List.countP_eq_zero.mp hnew) y hy
    simpa using this
  have hnone : db.repos.find? (repoKeyMatch p) = none :=
    List.find?_eq_none.mpr (fun y hy => by simp [hall y hy])
  have hrow : repoKeyMatch p (insertedRow p t1) = true := by
    simp [repoKeyMatch, insertedRow]
  have e1 : submit_repo db p t1 = (⟨200, none, some "Submission received"⟩,
      { db with repos := db.repos ++ [insertedRow p t1] }) := by
    simp [submit_repo, ht, hnone, insertedRow]
  have hfind2 : (db.repos ++ [insertedRow p t1]).find? (repoKeyMatch p) =
      some (insertedRow p t1) :=
    find?_split _ db.repos [] _ hall hrow
  have hupd : updateFirst (repoKeyMatch p)
      (fun r => { r with repo_url := p.repo_url, commit_sha := p.commit_sha,
                         pages_url := p.pages_url, timestamp := t2 })
      (db.repos ++ [insertedRow p t1]) = db.repos ++ [insertedRow p t2] :=
    updateFirst_split _ _ db.repos [] _ hall hrow
  have hrow2 : repoKeyMatch p (insertedRow p t2) = true := by
    simp [repoKeyMatch, insertedRow]
  have e2 : submit_repo (submit_repo db p t1).2 p t2 =
      (⟨200, none, some "Submission updated"⟩,
       { db with repos := db.repos ++ [insertedRow p t2] }) := by
    rw [e1]
    simp only [submit_repo, ht, hfind2, hupd]
  refine ⟨by rw [e1], by rw [e2], ?_, ?_⟩
  · rw [e2]
    simp [List.countP_append, List.countP_cons, hnew, hrow2]
  · rw [e2]
    simp

/-- A concrete stored submission row matching `payloadEx`'s key. -/
def repoEx : RepoRow :=
  ⟨"a@x.com", "sum-of-sales-00000", 1, "n1", "https://github.com/a/old", "cafe",
   "https://a.github.io/old/", 3⟩

/-- C4 witness: a double submission against a store holding only the
matching task ends with exactly one stored row for the key. -/
theorem submit_repo_upsert_witness :
    (submit_repo ⟨[taskEx], [], []⟩ payloadEx 10).1 =
      ⟨200, none, some "Submission received"⟩ ∧
    (submit_repo (submit_repo ⟨[taskEx], [], []⟩ payloadEx 10).2 payloadEx 11).1 =
      ⟨200, none, some "Submission updated"⟩ ∧
    (submit_repo (submit_repo ⟨[taskEx], [], []⟩ payloadEx 10).2 payloadEx 11).2.repos.countP
      (repoKeyMatch payloadEx) = 1 ∧
    (submit_repo (submit_repo ⟨[taskEx], [], []⟩ payloadEx 10).2 payloadEx 11).2.repos.length =
      ([] : List RepoRow).length + 1 :=
  submit_repo_upsert ⟨[taskEx], [], []⟩ payloadEx 10 11 (by decide) (by decide)

/-! ## C10 — frame property of the update path -/

/-- C10.  On the update path (the store's repo list splits as
`l₁ ++ x :: l₂` with `x` the first row matching the payload key), only
that row is rewritten — and only its `repo_url`, `commit_sha`,
`pages_url` and `timestamp` fields: its `email`, `task`, `round` and
`nonce` are untouched, every other Submission row is unchanged, and the
`tasks` and `results` tables are returned exactly as they were. -/
theorem submit_repo_update_frame (db : DB) (p : SubmitPayload) (now : Nat)
    (l₁ l₂ : List RepoRow) (x : RepoRow)
    (htask : (db.tasks.find? (taskKeyMatch p)).isSome = true)
    (hsplit : db.repos = l₁ ++ x :: l₂)
    (hl₁ : ∀ y ∈ l₁, repoKeyMatch p y = false)
    (hx : repoKeyMatch p x = true) :
    (submit_repo db p now).1 = ⟨200, none, some "Submission updated"⟩ ∧
    (submit_repo db p now).2 = { db with repos := l₁ ++
        { x with repo_url := p.repo_url, commit_sha := p.commit_sha,
                 pages_url := p.pages_url, timestamp := now } :: l₂ } ∧
    ({ x with repo_url := p.repo_url, commit_sha := p.commit_sha,
              pages_url := p.pages_url, timestamp := now }).email = x.email ∧
    ({ x with repo_url := p.repo_url, commit_sha := p.commit_sha,
              pages_url := p.pages_url, timestamp := now }).task = x.task ∧
    ({ x with repo_url := p.repo_url, commit_sha := p.commit_sha,
              pages_url := p.pages_url, timestamp := now }).round = x.round ∧
    ({ x with repo_url := p.repo_url, commit_sha := p.commit_sha,
              pages_url := p.pages_url, timestamp := now }).nonce = x.nonce ∧
    (submit_repo db p now).2.tasks = db.tasks ∧
    (submit_repo db p now).2.results = db.results := by
  obtain ⟨t, ht⟩ := Option.isSome_iff_exists.mp htask
  have hfind : db.repos.find? (repoKeyMatch p) = some x := by
    rw [hsplit]
    exact find?_split _ l₁ l₂ x hl₁ hx
  have hupd : updateFirst (repoKeyMatch p)
      (fun r => { r with repo_url := p.repo_url, commit_sha := p.commit_sha,
                         pages_url := p.pages_url, timestamp := now }) db.repos =
      l₁ ++ { x with repo_url := p.repo_url, commit_sha := p.commit_sha,
                     pages_url := p.pages_url, timestamp := now } :: l₂ := by
    rw [hsplit]
    exact updateFirst_split _ _ l₁ l₂ x hl₁ hx
  have e : submit_repo db p now = (⟨200, none, some "Submission updated"⟩,
      { db with repos := l₁ ++
        { x with repo_url := p.repo_url, commit_sha := p.commit_sha,
                 pages_url := p.pages_url, timestamp := now } :: l₂ }) := by
    simp only [submit_repo, ht, hfind, hupd]
  rw [e]
  exact ⟨rfl, rfl, rfl, rfl, rfl, rfl, rfl, rfl⟩

/-- C10 witness: updating the single stored row rewrites only its
locator fields and timestamp; tasks and results are untouched. -/
theorem submit_repo_update_frame_witness :
    (submit_repo ⟨[taskEx], [repoEx], []⟩ payloadEx 9).2 =
      ⟨[taskEx],
       [⟨repoEx.email, repoEx.task, repoEx.round, repoEx.nonce, payloadEx.repo_url,
         payloadEx.commit_sha, payloadEx.pages_url, 9⟩],
       []⟩ :=
  ((submit_repo_update_frame ⟨[taskEx], [repoEx], []⟩ payloadEx 9 [] [] repoEx
    (by decide) rfl (fun y hy => nomatch hy) (by decide)).2).1

/-! ## C3 — submission-level idempotency of evaluation -/

/-- If the `results` table already holds a row keyed `(e, t, r)`, the
evaluation loop never adds another row with that key: the key's rows are
exactly preserved. -/
lemma runEvalLoop_frame (evalSub : RepoRow → TaskRow → List CheckOutcome)
    (tasks : List TaskRow) (e tk : String) (r : Nat) :
    ∀ (repos : List RepoRow) (results : List ResultRow),
      0 < results.countP (resultKey e tk r) →
      (runEvalLoop evalSub tasks repos results).filter (resultKey e tk r) =
        results.filter (resultKey e tk r) := by
  intro repos
  induction repos with
  | nil => exact fun results _ => rfl
  | cons repo rest ih =>
    intro results h
    by_cases hc : 0 < results.countP (resultKey repo.email repo.task repo.round)
    · have hstep : runEvalLoop evalSub tasks (repo :: rest) results =
          runEvalLoop evalSub tasks rest results := by
        simp [runEvalLoop, hc]
      rw [hstep]
      exact ih results h
    · cases hft : tasks.find? (fun t =>
          t.email == repo.email && t.task == repo.task && t.round == repo.round) with
      | none =>
        have hstep : runEvalLoop evalSub tasks (repo :: rest) results =
            runEvalLoop evalSub tasks rest results := by
          simp [runEvalLoop, hc, hft]
        rw [hstep]
        exact ih results h
      | some task =>
        have hstep : runEvalLoop evalSub tasks (repo :: rest) results =
            runEvalLoop evalSub tasks rest
              (results ++ (evalSub repo task).map (mkResult repo)) := by
          simp [runEvalLoop, hc, hft]
        have hkey : ∀ c : CheckOutcome, resultKey e tk r (mkResult repo c) = false := by
          intro c
          by_contra hcon
          have htrue : resultKey e tk r (mkResult repo c) = true := by
            revert hcon
            cases resultKey e tk r (mkResult repo c) <;> simp
          simp only [resultKey, mkResult, Bool.and_eq_true, beq_iff_eq] at htrue
          obtain ⟨⟨he, ht⟩, hr⟩ := htrue
          apply hc
          rw [he, ht, hr]
          exact h
        have hnil : ((evalSub repo task).map (mkResult repo)).filter
            (resultKey e tk r) = [] := by
          rw [List.filter_eq_nil]
          intro a ha
          obtain ⟨c, _, hcm⟩ := List.mem_map.mp ha
          rw [← hcm]
          simp [hkey c]
        have hfilter : (results ++ (evalSub repo task).map (mkResult repo)).filter
            (resultKey e tk r) = results.filter (resultKey e tk r) := by
          rw [List.filter_append, hnil, List.append_nil]
        have hpos : 0 < (results ++ (evalSub repo task).map (mkResult repo)).countP
            (resultKey e tk r) := by
          rw [List.countP_append]
          omega
        rw [hstep, ih _ hpos, hfilter]

/-- C3.  Evaluation is idempotent at submission granularity: for a
submission `s` in the store with at least one existing `Result` row keyed
by its `(email, task, round)`, running `run_evaluation` adds no further
`Result` rows for that submission — the rows with its key are returned
exactly as they were. -/
theorem run_evaluation_idempotent (evalSub : RepoRow → TaskRow → List CheckOutcome)
    (db : DB) (s : RepoRow) (hmem : s ∈ db.repos)
    (hres : 0 < db.results.countP (resultKey s.email s.task s.round)) :
    (run_evaluation evalSub db).results.filter (resultKey s.email s.task s.round) =
      db.results.filter (resultKey s.email s.task s.round) :=
  runEvalLoop_frame evalSub db.tasks s.email s.task s.round db.repos db.results hres

/-- A concrete `evaluate_submission` oracle for closed evaluations. -/
def evalSubEx : RepoRow → TaskRow → List CheckOutcome :=
  fun _ _ => [⟨"MIT License", 1, "MIT license found", "log"⟩]

/-- A concrete existing result row keyed like `repoEx`. -/
def resultEx : ResultRow :=
  ⟨"a@x.com", "sum-of-sales-00000", 1, "https://github.com/a/old", "cafe",
   "https://a.github.io/old/", "MIT License", 1, "MIT license found", "log"⟩

/-- C3 witness: with one already-evaluated submission in the store, a
re-run leaves its result rows exactly as they were. -/
theorem run_evaluation_idempotent_witness :
    (run_evaluation evalSubEx ⟨[taskEx], [repoEx], [resultEx]⟩).results.filter
      (resultKey repoEx.email repoEx.task repoEx.round) = [resultEx] :=
  (run_evaluation_idempotent evalSubEx ⟨[taskEx], [repoEx], [resultEx]⟩ repoEx
    (by decide) (by decide)).trans (by decide)

/-! ## C2 — retry/backoff schedule of the notifier -/

/-- `filterMap` collapses to `map` when the function is total on the
list's members. -/
lemma filterMap_all_some {α β : Type} {f : α → Option β} {g : α → β} :
    ∀ l : List α, (∀ a ∈ l, f a = some (g a)) → l.filterMap f = l.map g := by
  intro l
  induction l with
  | nil => intro _; rfl
  | cons a t ih =>
    intro h
    simp [List.filterMap_cons, h a (by simp), ih (fun x hx => h x (by simp [hx]))]

/-- On a run where every attempt fails, `notifyGo` returns the failure
outcome, sleeps `2^a` after every non-final attempt, and makes every
attempt in its list. -/
lemma notifyGo_all_fail (dest : Nat → HttpOutcome) (mr : Nat) :
    ∀ l : List Nat, (∀ a ∈ l, ok200 (dest a) = false) →
      notifyGo dest mr l =
        (.failure mr, l.filterMap (fun a => if a < mr - 1 then some ((2:Nat) ^ a) else none), l) := by
  intro l
  induction l with
  | nil => intro _; simp [notifyGo]
  | cons a t ih =>
    intro h
    have ha : ok200 (dest a) = false := h a (by simp)
    have ht := ih (fun x hx => h x (by simp [hx]))
    cases hd : dest a with
    | response s text =>
      have hs : (s == 200) = false := by
        rw [hd] at ha
        simpa [ok200] using ha
      by_cases hlt : a < mr - 1
      · simp [notifyGo, hd, hs, ht, notifyStep, hlt, List.filterMap_cons]
      · simp [notifyGo, hd, hs, ht, notifyStep, hlt, List.filterMap_cons]
    | exn m =>
      by_cases hlt : a < mr - 1
      · simp [notifyGo, hd, ht, notifyStep, hlt, List.filterMap_cons]
      · simp [notifyGo, hd, ht, notifyStep, hlt, List.filterMap_cons]

/-- The slept delays of an all-failing run over `range mr` are exactly
`1, 2, 4, …, 2^(mr-2)` — one per non-final attempt. -/
lemma notify_delays_range (mr : Nat) :
    (List.range mr).filterMap (fun a => if a < mr - 1 then some ((2:Nat) ^ a) else none) =
      (List.range (mr - 1)).map (fun a => (2:Nat) ^ a) := by
  cases mr with
  | zero => simp
  | succ n =>
    rw [List.range_succ, List.filterMap_append]
    have h1 : (List.range n).filterMap (fun a => if a < n + 1 - 1 then some ((2:Nat) ^ a) else none) =
        (List.range n).map (fun a => (2:Nat) ^ a) :=
      filterMap_all_some _ (fun a ha => by simp [List.mem_range.mp ha])
    simp only [Nat.add_sub_cancel] at h1
    simp [h1]

/-- A failed attempt falls through to the backoff bookkeeping. -/
lemma notifyGo_skip (dest : Nat → HttpOutcome) (mr a : Nat) (t : List Nat)
    (ha : ok200 (dest a) = false) :
    notifyGo dest mr (a :: t) = notifyStep mr a (notifyGo dest mr t) := by
  cases hd : dest a with
  | response s text =>
    have hs : (s == 200) = false := by
      rw [hd] at ha
      simpa [ok200] using ha
    simp [notifyGo, hd, hs]
  | exn m => simp [notifyGo, hd]

/-- A 200 response returns immediately with the 1-based attempt index. -/
lemma notifyGo_hit (dest : Nat → HttpOutcome) (mr a : Nat) (t : List Nat) (text : String)
    (hd : dest a = .response 200 text) :
    notifyGo dest mr (a :: t) = (.success 200 text (a + 1), [], [a]) := by
  simp [notifyGo, hd]

/-- First 200 at attempt `j`: the loop over `range' s n` (with
`s ≤ j < s + n`, all earlier attempts failing) returns success at `j+1`,
having slept after each of the `j - s` failed attempts. -/
lemma notifyGo_first_success (dest : Nat → HttpOutcome) (mr j : Nat) (text : String)
    (hj : dest j = .response 200 text) (hjm : j < mr)
    (hbefore : ∀ i, i < j → ok200 (dest i) = false) :
    ∀ n s : Nat, s ≤ j → j < s + n →
      notifyGo dest mr (List.range' s n) =
        (.success 200 text (j + 1), (List.range' s (j - s)).map (fun a => (2:Nat) ^ a),
         List.range' s (j - s) ++ [j]) := by
  intro n
  induction n with
  | zero =>
    intro s hs hlt
    omega
  | succ m ih =>
    intro s hs hlt
    rw [List.range'_succ]
    by_cases hsj : s = j
    · subst hsj
      rw [notifyGo_hit dest mr s _ text hj]
      simp
    · have hslt : s < j := lt_of_le_of_ne hs hsj
      rw [notifyGo_skip dest mr s _ (hbefore s hslt)]
      rw [ih (s + 1) (by omega) (by omega)]
      have hlt2 : s < mr - 1 := by omega
      simp only [notifyStep, if_pos hlt2]
      have harith : j - (s + 1) = j - s - 1 := by omega
      rw [harith]
      have hrange : List.range' s (j - s) = s :: List.range' (s + 1) (j - s - 1) := by
        conv_lhs => rw [show j - s = (j - s - 1) + 1 from by omega]
        rw [List.range'_succ]
      rw [hrange]
      simp

/-- C2.  Against a destination that never returns 200 (always a non-200
status or a request exception), `notify_evaluation` makes exactly
`max_retries` POST attempts, sleeps `2^attempt` seconds after each
attempt but the last (delays `1, 2, 4, …, 2^(max_retries-2)`), and
returns — it never raises — the failure outcome carrying
`attempts = max_retries`.  If instead the first 200 arrives on attempt
`j` (0-based), it returns the success outcome carrying the 1-based index
`j + 1` of the succeeding attempt, having made only attempts `0, …, j`. -/
theorem notify_backoff_spec (dest : Nat → HttpOutcome) (maxRetries : Nat) :
    ((∀ i, i < maxRetries → ok200 (dest i) = false) →
      notify_evaluation dest maxRetries =
        (.failure maxRetries, (List.range (maxRetries - 1)).map (fun a => (2:Nat) ^ a),
         List.range maxRetries)) ∧
    (∀ j text, j < maxRetries → dest j = .response 200 text →
      (∀ i, i < j → ok200 (dest i) = false) →
      notify_evaluation dest maxRetries =
        (.success 200 text (j + 1), (List.range j).map (fun a => (2:Nat) ^ a),
         List.range j ++ [j])) := by
  constructor
  · intro h
    rw [notify_evaluation, notifyGo_all_fail dest maxRetries (List.range maxRetries)
      (fun a ha => h a (List.mem_range.mp ha)), notify_delays_range]
  · intro j text hjm hj hbefore
    rw [notify_evaluation, List.range_eq_range',
      notifyGo_first_success dest maxRetries j text hj hjm hbefore maxRetries 0
        (by omega) (by omega)]
    simp [List.range_eq_range']

/-- A destination that is always down (HTTP 503). -/
def destDown : Nat → HttpOutcome := fun _ => .response 503 "Service Unavailable"

/-- A destination that times out twice, then answers 200. -/
def destFlaky : Nat → HttpOutcome := fun i => if i < 2 then .exn "timeout" else .response 200 "ok"

/-- C2 witness: with the default `max_retries = 5`, an always-down
destination sees 5 attempts, delays `[1, 2, 4, 8]` and a failure outcome
with `attempts = 5`; a destination that recovers on the third attempt
yields success with attempt index 3 after delays `[1, 2]`. -/
theorem notify_backoff_spec_witness :
    notify_evaluation destDown 5 =
      (.failure 5, (List.range 4).map (fun a => (2:Nat) ^ a), List.range 5) ∧
    notify_evaluation destFlaky 5 =
      (.success 200 "ok" 3, (List.range 2).map (fun a => (2:Nat) ^ a),
       List.range 2 ++ [2]) :=
  ⟨(notify_backoff_spec destDown 5).1 (by decide),
   (notify_backoff_spec destFlaky 5).2 2 "ok" (by decide) (by decide) (by decide)⟩

/-! ## C8 witness -/

/-- C8 witness: a concrete MIT license body scores 1. -/
theorem check_license_spec_witness :
    (check_license (.response 200
      "MIT License: Permission is hereby granted, free of charge")).1 = 1 :=
  (check_license_spec "MIT License: Permission is hereby granted, free of charge" "").1.mpr
    ⟨by decide, by decide⟩

/-! ## C9 — behavioral check keyword dispatch -/

/-- A page with no matching selectors. -/
def pageNoEls : PageState := ⟨"Demo Page", fun _ => false⟩

/-- C9 counterexample.  Not every check text mentioning `"license"` is
trivially passed: the keyword rules run in order, and a check that also
mentions `"title"` is taken by the earlier title rule and scores 0 here
(the title lacks `'Sales Summary'`), not the trivial pass the claim
requires. -/
theorem runCheck_license_not_trivially_passed :
    pyIn "license" (pyLower "The page title mentions the license") = true ∧
    (runCheck pageNoEls "The page title mentions the license").2.1 = 0 := by decide

/-- C9 amended.  After successful navigation the keyword rules fire in
the source's order (title, bootstrap, `'#'`-element, marked/highlight,
license, readme, generic).  Given a check that matches neither the title
nor the bootstrap rule: (i) if it also matches no `'#'` or script rule
and mentions `"license"` or `"readme"`, it is trivially passed with
score 1 and reason `"Checked separately"`; (ii) if its first
`'#'`-token is `total-sales`, it scores 1 when the page has an element
with that id and 0 with an `"Element #total-sales not found"` reason
otherwise; (iii) if it matches no rule at all it defaults to a
conservative pass with score 1. -/
theorem runCheck_keyword_rules (page : PageState) (check : String)
    (hTitle : pyIn "title" (pyLower check) = false)
    (hBoot : pyIn "bootstrap" (pyLower check) = false) :
    (pyIn "#" check = false → pyIn "marked" (pyLower check) = false →
      pyIn "highlight" (pyLower check) = false →
      (pyIn "license" (pyLower check) = true ∨ pyIn "readme" (pyLower check) = true) →
      (runCheck page check).2.1 = 1 ∧ (runCheck page check).2.2.1 = "Checked separately") ∧
    (selectorOf check = some "total-sales" → pyIn "#" check = true →
      ((page.hasSelector "#total-sales" = true →
        runCheck page check =
          (check, 1, "Element #total-sales found", "Element exists")) ∧
       (page.hasSelector "#total-sales" = false →
        runCheck page check =
          (check, 0, "Element #total-sales not found", "Element missing")))) ∧
    (pyIn "#" check = false → pyIn "marked" (pyLower check) = false →
      pyIn "highlight" (pyLower check) = false → pyIn "license" (pyLower check) = false →
      pyIn "readme" (pyLower check) = false →
      runCheck page check = (check, 1, "Generic check passed", "No specific validation")) := by
  have happ : ("#" ++ "total-sales" : String) = "#total-sales" := rfl
  refine ⟨?_, ?_, ?_⟩
  · intro hHash hMarked hHigh hLR
    cases hL : pyIn "license" (pyLower check) with
    | true => simp [runCheck, hTitle, hBoot, hHash, hMarked, hHigh, hL]
    | false =>
      cases hLR with
      | inl h => rw [h] at hL; cases hL
      | inr hR => simp [runCheck, hTitle, hBoot, hHash, hMarked, hHigh, hL, hR]
  · intro hsel hHash
    constructor <;> intro hps <;>
      simp [runCheck, hTitle, hBoot, hHash, hsel, happ, hps]
  · intro h1 h2 h3 h4 h5
    simp [runCheck, hTitle, hBoot, h1, h2, h3, h4, h5]

/-- A page holding exactly the `#total-sales` element. -/
def pageTS : PageState := ⟨"Sales Summary 1234", fun sel => sel == "#total-sales"⟩

/-- C9 witness: the `#total-sales` check scores 1 against a page with
the element and 0 with the `"not found"` reason against a page without
it. -/
theorem runCheck_keyword_rules_witness :
    runCheck pageTS "#total-sales element displays correct sum" =
      ("#total-sales element displays correct sum", 1,
       "Element #total-sales found", "Element exists") ∧
    runCheck pageNoEls "#total-sales element displays correct sum" =
      ("#total-sales element displays correct sum", 0,
       "Element #total-sales not found", "Element missing") :=
  ⟨((runCheck_keyword_rules pageTS "#total-sales element displays correct sum"
      (by decide) (by decide)).2.1 (by decide) (by decide)).1 (by decide),
   ((runCheck_keyword_rules pageNoEls "#total-sales element displays correct sum"
      (by decide) (by decide)).2.1 (by decide) (by decide)).2 (by decide)⟩

/-! ## C6 — round-2 distribution -/

/-- A registry entry standing for the `sum-of-sales` template family. -/
def tmplSum : TaskTemplate :=
  ⟨"sum-of-sales", "Publish a site that sums the sales column of data.csv {seed}", none,
   ["Repo has MIT license"],
   [⟨"Add a Bootstrap table #product-sales keeping #total-sales accurate", none,
     ["#product-sales table has at least 1 row"]⟩]⟩

/-- A registry entry standing for the `markdown-to-html` template family. -/
def tmplMd : TaskTemplate :=
  ⟨"markdown-to-html", "Publish a static page that converts input.md to HTML", none,
   ["Repo has MIT license"],
   [⟨"Add tabs #markdown-tabs that switch between rendered and source views", none,
     ["#markdown-tabs has at least 2 buttons"]⟩]⟩

/-- A concrete world for a round-2 run: every PRNG draw returns 1, so the
fresh seeded draw over the two-template registry selects index
`1 % 2 = 1`, i.e. `markdown-to-html`. -/
def envR2Ex : R2Env :=
  { R := ⟨fun _ => 0, fun g => (1, g + 1)⟩,
    pyHash := fun _ => 4242,
    templates := [tmplSum, tmplMd],
    hourBucket := "2025-02-01-10",
    sha256hex := fun _ => "0123456789abcdef",
    nonces := fun i => "nonce-r2-" ++ toString i,
    send := fun _ _ => 200,
    evaluation_url := "http://localhost:5001/api/submit" }

/-- The store before the round-2 run: one participant with a round-1 task
of the `sum-of-sales` family and a round-1 submission. -/
def dbR2Ex : DB := ⟨[taskEx], [repoEx], []⟩

/-- C6 (divergence, evaluated at a failing input).  The participant's
round-1 task belongs to the `sum-of-sales` family, and round-2 dispatch
does restrict itself to round-1 submitters and does reuse the round-1
endpoint and secret — but the round-2 task it issues is generated from a
fresh seeded draw (`email:current-hour-bucket`) over the registry and
comes out in the `markdown-to-html` family, not as a variant of the
round-1 family the claim (and the source's own comment
`"Generate round 2 task using same seed/template family"`) requires. -/
theorem round2_family_divergence :
    (run_round2 envR2Ex dbR2Ex 0).map (fun db =>
        db.tasks.map (fun t => (t.email, t.round, t.task, t.endpoint, t.secret))) =
      Except.ok
        [("a@x.com", 1, "sum-of-sales-00000", "http://student/api", "s3cret"),
         ("a@x.com", 2, "markdown-to-html-01234", "http://student/api", "s3cret")] ∧
    charsLeads "sum-of-sales".toList "sum-of-sales-00000".toList = true ∧
    charsLeads "sum-of-sales".toList "markdown-to-html-01234".toList = false := by
  refine ⟨?_, by decide, by decide⟩
  rfl
